import Mathlib

/-!
Verification development for the smartcontract-analysis service.

The Python sources embedded here are:
  * `models.py`           — pydantic models (`StaticIssue`, `StaticAnalysisOutput`);
  * `static_analyzer.py`  — `run_tool_in_docker`, `parse_slither_output`,
                            `parse_mythril_output`;
  * `llm_analyzer.py`     — its own `LLMIssue` / `LLMAnalysisResult` models and
                            `run_analysis`;
  * `main.py`             — the `/static-analysis` and `/llm-analysis` endpoints.

Python values flowing out of `json.loads` are modelled by the inductive
`JValue`; Python-level failures (exceptions) are modelled by `Except PyErr`.
A Python function that can raise becomes a Lean function into `Except PyErr _`;
a surrounding `try/except` becomes a `match` on that result.  External effects
(the Docker daemon, the remote LLM HTTP call, Etherscan, the filesystem) are
modelled by explicit oracle values describing the outcome of each call.
-/

namespace SCA

/-- A JSON number as the exact decimal it is written as: the value is
`mantissa / 10 ^ exp10`.  (JSON numbers are decimal literals; exponent
notation is not used by the tool outputs modelled here.) -/
structure JNum where
  mantissa : Int
  exp10 : Nat
deriving DecidableEq, Repr

/-- `10 ^ n` by structural recursion. -/
def pow10 : Nat → Nat
  | 0 => 1
  | n + 1 => 10 * pow10 n

/-- Value equality of two JSON numbers (Python `==` ignores the written
representation). -/
def JNum.valEq (a b : JNum) : Bool :=
  a.mantissa * (pow10 b.exp10 : Int) = b.mantissa * (pow10 a.exp10 : Int)

/-- JSON values, the result type of Python's `json.loads`. -/
inductive JValue where
  | null : JValue
  | bool : Bool → JValue
  | num : JNum → JValue
  | str : String → JValue
  | arr : List JValue → JValue
  | obj : List (String × JValue) → JValue

/-- A raised Python exception: its type name and its message. -/
structure PyErr where
  name : String
  msg : String
deriving DecidableEq, Repr

/-- The opening-brace character (code 123). -/
def lbrace : Char := Char.ofNat 123

/-- The closing-brace character (code 125). -/
def rbrace : Char := Char.ofNat 125

/-- JSON whitespace characters. -/
def isWs (c : Char) : Bool := c = ' ' || c = '\n' || c = '\t' || c = '\r'

/-- Drop leading JSON whitespace. -/
def skipWs : List Char → List Char
  | [] => []
  | c :: rest => if isWs c then skipWs rest else c :: rest

/-- Body of a JSON string literal after the opening quote; handles the common
escape sequences (the inputs in this development use none beyond `\"`). -/
def parseStringChars (acc : List Char) : List Char → Option (String × List Char)
  | [] => none
  | c :: rest =>
    if c = '"' then some (String.mk acc.reverse, rest)
    else if c = '\\' then
      match rest with
      | [] => none
      | e :: rest2 =>
        let esc : Option Char :=
          if e = '"' then some '"'
          else if e = '\\' then some '\\'
          else if e = '/' then some '/'
          else if e = 'n' then some '\n'
          else if e = 't' then some '\t'
          else if e = 'r' then some '\r'
          else if e = 'b' then some (Char.ofNat 8)
          else if e = 'f' then some (Char.ofNat 12)
          else none
        match esc with
        | some ch => parseStringChars (ch :: acc) rest2
        | none => none
    else parseStringChars (c :: acc) rest

/-- Split off a maximal run of decimal digits. -/
def spanDigits : List Char → List Char × List Char
  | [] => ([], [])
  | c :: rest =>
    if c.isDigit then
      let p := spanDigits rest
      (c :: p.1, p.2)
    else ([], c :: rest)

/-- Numeric value of a digit run. -/
def natOfDigits (ds : List Char) : Nat :=
  ds.foldl (fun acc c => acc * 10 + (c.toNat - 48)) 0

/-- Parse a JSON number (optional sign, integer part, optional fraction). -/
def parseNumber (cs : List Char) : Option (JNum × List Char) :=
  let p : Bool × List Char :=
    match cs with
    | c :: rest => if c = '-' then (true, rest) else (false, cs)
    | [] => (false, cs)
  match spanDigits p.2 with
  | ([], _) => none
  | (ds, rest) =>
    match rest with
    | '.' :: rest2 =>
      match spanDigits rest2 with
      | ([], _) => none
      | (fs, rest3) =>
        let m : Int := (natOfDigits ds * pow10 fs.length + natOfDigits fs : Nat)
        some (⟨if p.1 then -m else m, fs.length⟩, rest3)
    | _ =>
      let m : Int := (natOfDigits ds : Nat)
      some (⟨if p.1 then -m else m, 0⟩, rest)

/-- Match a fixed literal continuation such as `rue` of `true`. -/
def expectLit (lit : String) (cs : List Char) (v : JValue) :
    Except String (JValue × List Char) :=
  if lit.data.isPrefixOf cs then .ok (v, cs.drop lit.length)
  else .error "Expecting value"

mutual

/-- Recursive-descent JSON value parser (fuel-bounded). -/
def parseJ : Nat → List Char → Except String (JValue × List Char)
  | 0, _ => .error "too deeply nested"
  | fuel + 1, cs =>
    match skipWs cs with
    | [] => .error "Expecting value: unexpected end of input"
    | c :: rest =>
      if c = lbrace then parseObjItems fuel rest []
      else if c = '[' then parseArrItems fuel rest []
      else if c = '"' then
        match parseStringChars [] rest with
        | some (s, rest2) => .ok (.str s, rest2)
        | none => .error "Unterminated string"
      else if c = 't' then expectLit "rue" rest (.bool true)
      else if c = 'f' then expectLit "alse" rest (.bool false)
      else if c = 'n' then expectLit "ull" rest .null
      else
        match parseNumber (c :: rest) with
        | some (q, rest2) => .ok (.num q, rest2)
        | none => .error "Expecting value"

/-- Elements of a JSON array after `[`. -/
def parseArrItems : Nat → List Char → List JValue →
    Except String (JValue × List Char)
  | 0, _, _ => .error "too deeply nested"
  | fuel + 1, cs, acc =>
    match skipWs cs with
    | [] => .error "unexpected end of input in array"
    | c :: rest =>
      if c = ']' && acc.isEmpty then .ok (.arr [], rest)
      else
        match parseJ fuel (c :: rest) with
        | .error e => .error e
        | .ok (v, rest2) =>
          match skipWs rest2 with
          | ',' :: rest3 => parseArrItems fuel rest3 (acc ++ [v])
          | ']' :: rest3 => .ok (.arr (acc ++ [v]), rest3)
          | _ => .error "Expecting comma delimiter"

/-- Members of a JSON object after the opening brace. -/
def parseObjItems : Nat → List Char → List (String × JValue) →
    Except String (JValue × List Char)
  | 0, _, _ => .error "too deeply nested"
  | fuel + 1, cs, acc =>
    match skipWs cs with
    | [] => .error "unexpected end of input in object"
    | c :: rest =>
      if c = rbrace && acc.isEmpty then .ok (.obj [], rest)
      else if c = '"' then
        match parseStringChars [] rest with
        | none => .error "Unterminated key"
        | some (k, rest2) =>
          match skipWs rest2 with
          | ':' :: rest3 =>
            match parseJ fuel rest3 with
            | .error e => .error e
            | .ok (v, rest4) =>
              match skipWs rest4 with
              | ',' :: rest5 => parseObjItems fuel rest5 (acc ++ [(k, v)])
              | d :: rest5 =>
                if d = rbrace then .ok (.obj (acc ++ [(k, v)]), rest5)
                else .error "Expecting comma delimiter"
              | [] => .error "unexpected end of input in object"
          | _ => .error "Expecting colon delimiter"
      else .error "Expecting property name"

end

/-- Model of Python's `json.loads`: parse one JSON value, allowing only
trailing whitespace.  Failure corresponds to `json.JSONDecodeError`. -/
def json_loads (s : String) : Except String JValue :=
  match parseJ (2 * s.length + 4) s.data with
  | .error e => .error e
  | .ok (v, rest) =>
    if (skipWs rest).isEmpty then .ok v else .error "Extra data"

/-! ## Python value semantics

Helpers modelling the Python operations the analyzer code performs on the
values returned by `json.loads`: dictionary `.get`, subscripting, truthiness,
iteration, `in`, and the string methods used by the normalizers. -/

/-- Lookup in a Python dict built by `json.loads`: with duplicate keys the last
occurrence wins, so lookup returns the last binding of the key. -/
def lookupLast (kvs : List (String × JValue)) (k : String) : Option JValue :=
  (kvs.filterMap (fun p => if p.1 = k then some p.2 else none)).getLast?

/-- Structural equality of JSON values (Python `==` on loaded JSON data). -/
def jvalEq : JValue → JValue → Bool
  | .null, .null => true
  | .bool a, .bool b => a = b
  | .num a, .num b => a.valEq b
  | .str a, .str b => a = b
  | .arr a, .arr b => listJvalEq a b
  | .obj a, .obj b => listKvEq a b
  | _, _ => false
where
  listJvalEq : List JValue → List JValue → Bool
    | [], [] => true
    | a :: as, b :: bs => jvalEq a b && listJvalEq as bs
    | _, _ => false
  listKvEq : List (String × JValue) → List (String × JValue) → Bool
    | [], [] => true
    | (ka, va) :: as, (kb, vb) :: bs => ka = kb && jvalEq va vb && listKvEq as bs
    | _, _ => false

/-- Python `d.get(k)` without default: `None` when absent; raises
`AttributeError` when the receiver is not a dict. -/
def jGet (v : JValue) (k : String) : Except PyErr (Option JValue) :=
  match v with
  | .obj kvs => .ok (lookupLast kvs k)
  | _ => .error ⟨"AttributeError", "object has no attribute get"⟩

/-- Python `d.get(k, default)`. -/
def jGetD (v : JValue) (k : String) (default : JValue) : Except PyErr JValue :=
  match jGet v k with
  | .error e => .error e
  | .ok o => .ok (o.getD default)

/-- Python `v[k]` with a string key (dict subscript). -/
def jSubscriptKey (v : JValue) (k : String) : Except PyErr JValue :=
  match v with
  | .obj kvs =>
    match lookupLast kvs k with
    | some x => .ok x
    | none => .error ⟨"KeyError", k⟩
  | .arr _ => .error ⟨"TypeError", "list indices must be integers"⟩
  | _ => .error ⟨"TypeError", "object is not subscriptable"⟩

/-- Python `v[i]` with a non-negative integer index (list subscript). -/
def jSubscriptIdx (v : JValue) (i : Nat) : Except PyErr JValue :=
  match v with
  | .arr xs =>
    match xs.get? i with
    | some x => .ok x
    | none => .error ⟨"IndexError", "list index out of range"⟩
  | .obj _ => .error ⟨"KeyError", "integer key absent"⟩
  | _ => .error ⟨"TypeError", "object is not subscriptable"⟩

/-- Python truthiness of a loaded JSON value (`None`, `False`, `0`, `""`,
`[]` and an empty dict are falsy). -/
def JValue.truthy : JValue → Bool
  | .null => false
  | .bool b => b
  | .num q => q.mantissa ≠ 0
  | .str s => s ≠ ""
  | .arr xs => !xs.isEmpty
  | .obj kvs => !kvs.isEmpty

/-- Python iteration `for x in v`: lists yield elements, dicts yield their
keys, strings yield one-character strings; other values raise `TypeError`. -/
def jIterList : JValue → Except PyErr (List JValue)
  | .arr xs => .ok xs
  | .obj kvs => .ok (kvs.map (fun p => .str p.1))
  | .str s => .ok (s.data.map (fun c => .str (String.mk [c])))
  | _ => .error ⟨"TypeError", "object is not iterable"⟩

/-- Whether `needle` occurs as a contiguous sublist of the second list. -/
def subListAt (needle : List Char) : List Char → Bool
  | [] => needle.isEmpty
  | c :: rest => needle.isPrefixOf (c :: rest) || subListAt needle rest

/-- Python `k in v` for a string `k`: key membership for dicts, element
membership for lists, substring test for strings. -/
def pyContains (k : String) : JValue → Except PyErr Bool
  | .obj kvs => .ok (kvs.any (fun p => p.1 = k))
  | .arr xs => .ok (xs.any (fun x => jvalEq x (.str k)))
  | .str s => .ok (subListAt k.data s.data)
  | _ => .error ⟨"TypeError", "argument of type is not iterable"⟩

/-- Python `str.capitalize()`: first character uppercased, the rest
lowercased. -/
def pyCapitalize (s : String) : String :=
  match s.data with
  | [] => ""
  | c :: rest => String.mk (c.toUpper :: rest.map Char.toLower)

/-- `.capitalize()` on a loaded JSON value: defined on strings only. -/
def jCapitalize (v : JValue) : Except PyErr String :=
  match v with
  | .str s => .ok (pyCapitalize s)
  | _ => .error ⟨"AttributeError", "object has no attribute capitalize"⟩

/-- Characters stripped by Python `str.strip()`. -/
def isPyWs (c : Char) : Bool :=
  c = ' ' || c = '\n' || c = '\t' || c = '\r' || c = '\x0b' || c = '\x0c'

/-- Drop leading Python whitespace from a character list. -/
def dropLeadingWs : List Char → List Char
  | [] => []
  | c :: rest => if isPyWs c then dropLeadingWs rest else c :: rest

/-- Python `str.strip()`: remove leading and trailing whitespace. -/
def pyStrip (s : String) : String :=
  String.mk ((dropLeadingWs ((dropLeadingWs s.data).reverse)).reverse)

/-- `.strip()` on a loaded JSON value: defined on strings only. -/
def jStrip (v : JValue) : Except PyErr String :=
  match v with
  | .str s => .ok (pyStrip s)
  | _ => .error ⟨"AttributeError", "object has no attribute strip"⟩

/-- `.replace(" ", "-").lower()` on a loaded JSON value (the Mythril check-id
fallback); defined on strings only. -/
def jReplaceSpaceDashLower (v : JValue) : Except PyErr String :=
  match v with
  | .str s =>
    .ok (String.mk ((s.data.map (fun c => if c = ' ' then '-' else c)).map Char.toLower))
  | _ => .error ⟨"AttributeError", "object has no attribute replace"⟩

/-- Python `str(v)` as used in an f-string, restricted to the cases occurring
in the analyzer (error details are strings in practice). -/
def pyStr : JValue → String
  | .null => "None"
  | .bool true => "True"
  | .bool false => "False"
  | .num q => toString q.mantissa ++ (if q.exp10 = 0 then "" else "e-" ++ toString q.exp10)
  | .str s => s
  | .arr _ => "[...]"
  | .obj _ => "\x7b...\x7d"

/-! ## models.py -/

/-- `models.StaticIssue`: one normalized static-analysis finding. -/
structure StaticIssue where
  check : String
  severity : String
  line : Int
  message : String
deriving DecidableEq, Repr

/-- `models.StaticAnalysisOutput`: one static tool's report. -/
structure StaticAnalysisOutput where
  tool_name : String
  issues : List StaticIssue
  error : Option String
deriving DecidableEq, Repr

/-- Pydantic construction of `StaticIssue(check=..., severity=..., line=...,
message=...)`.  `severity` and `message` are already Python strings at every
call site; `check` and `line` are raw JSON values and are validated:
`check` must be a string, `line` an integer (pydantic rejects a non-integral
number for an `int` field).  A violation raises `ValidationError`. -/
def StaticIssue.make (check : JValue) (severity : String) (line : JValue)
    (message : String) : Except PyErr StaticIssue :=
  match check with
  | .str c =>
    match line with
    | .num q =>
      if q.mantissa % (pow10 q.exp10 : Int) = 0 then
        .ok ⟨c, severity, q.mantissa / (pow10 q.exp10 : Int), message⟩
      else .error ⟨"ValidationError", "line: input should be a valid integer"⟩
    | _ => .error ⟨"ValidationError", "line: input should be a valid integer"⟩
  | _ => .error ⟨"ValidationError", "check: input should be a valid string"⟩

/-- Pydantic construction of `StaticAnalysisOutput(...)`.  The model declares
`issues: List[StaticIssue] = Field(...)`, i.e. required with no default, so a
construction that omits `issues` (`issues = none` here) raises
`ValidationError`; `error` defaults to `None` when omitted. -/
def StaticAnalysisOutput.make (tool_name : String)
    (issues : Option (List StaticIssue)) (error : Option String) :
    Except PyErr StaticAnalysisOutput :=
  match issues with
  | some is => .ok ⟨tool_name, is, error⟩
  | none => .error ⟨"ValidationError", "issues: Field required"⟩

/-! ## static_analyzer.py — output normalizers

`parse_slither_output` / `parse_mythril_output` wrap `json.loads(stdout)` in
`try: ... except json.JSONDecodeError: ...`; only the JSON-decode failure is
caught, every other exception raised in the body (attribute errors on
unexpected shapes, pydantic `ValidationError`, index errors) propagates to the
caller.  That is exactly the `Except PyErr` structure below. -/

/-- Body of the list comprehension in `parse_slither_output` (lines 88–93):
`StaticIssue(check=d.get("check", "N/A"),
severity=d.get("impact", "Unknown").capitalize(),
line=d.get("elements", [{}])[0].get("source_mapping", {}).get("lines", [-1])[0],
message=d.get("description", "").strip())`, with Python's left-to-right
evaluation of the keyword arguments. -/
def slitherIssueOfDetector (d : JValue) : Except PyErr StaticIssue :=
  match jGetD d "check" (.str "N/A") with
  | .error e => .error e
  | .ok check =>
    match jGetD d "impact" (.str "Unknown") with
    | .error e => .error e
    | .ok impact =>
      match jCapitalize impact with
      | .error e => .error e
      | .ok severity =>
        match jGetD d "elements" (.arr [.obj []]) with
        | .error e => .error e
        | .ok elems =>
          match jSubscriptIdx elems 0 with
          | .error e => .error e
          | .ok e0 =>
            match jGetD e0 "source_mapping" (.obj []) with
            | .error e => .error e
            | .ok sm =>
              match jGetD sm "lines" (.arr [.num ⟨-1, 0⟩]) with
              | .error e => .error e
              | .ok lines =>
                match jSubscriptIdx lines 0 with
                | .error e => .error e
                | .ok line =>
                  match jGetD d "description" (.str "") with
                  | .error e => .error e
                  | .ok desc =>
                    match jStrip desc with
                    | .error e => .error e
                    | .ok message =>
                      StaticIssue.make check severity line message

/-- `parse_slither_output` applied to already-decoded JSON data (the body of
the `try` block after `json.loads` succeeded). -/
def parse_slither_data (data : JValue) (stderr : String) :
    Except PyErr StaticAnalysisOutput :=
  match jGetD data "success" .null with
  | .error e => .error e
  | .ok succ =>
    if succ.truthy then
      match jGetD data "results" (.obj []) with
      | .error e => .error e
      | .ok results =>
        match jGetD results "detectors" (.arr []) with
        | .error e => .error e
        | .ok detectors =>
          match jIterList detectors with
          | .error e => .error e
          | .ok ds =>
            match ds.mapM slitherIssueOfDetector with
            | .error e => .error e
            | .ok issues => StaticAnalysisOutput.make "Slither" (some issues) none
    else
      match jGetD data "error" (.str "Unknown Slither error") with
      | .error e => .error e
      | .ok errv =>
        StaticAnalysisOutput.make "Slither" none
          (some (pyStr errv ++ ". STDERR: " ++ stderr))

/-- `static_analyzer.parse_slither_output(stdout, stderr)`.  An `.error`
result models an exception propagating out of the Python function. -/
def parse_slither_output (stdout stderr : String) :
    Except PyErr StaticAnalysisOutput :=
  match json_loads stdout with
  | .error _ =>
    StaticAnalysisOutput.make "Slither" none
      (some ("Gagal mem-parsing output JSON. STDERR: " ++ stderr))
  | .ok data => parse_slither_data data stderr

/-- Body of the list comprehension in `parse_mythril_output` (lines 110–114):
`StaticIssue(check=i.get("swc-id", i.get("title", "Mythril Issue").replace(" ", "-").lower()),
severity=i.get("severity", "Unknown").capitalize(), line=i.get("lineno", -1),
message=i.get("description", "").strip())`.  Python evaluates the default
expression of the outer `.get` eagerly, so the title is fetched and lowercased
even when `swc-id` is present. -/
def mythrilIssueOfIssue (i : JValue) : Except PyErr StaticIssue :=
  match jGetD i "title" (.str "Mythril Issue") with
  | .error e => .error e
  | .ok title =>
    match jReplaceSpaceDashLower title with
    | .error e => .error e
    | .ok titleCheck =>
      match jGetD i "swc-id" (.str titleCheck) with
      | .error e => .error e
      | .ok check =>
        match jGetD i "severity" (.str "Unknown") with
        | .error e => .error e
        | .ok sev =>
          match jCapitalize sev with
          | .error e => .error e
          | .ok severity =>
            match jGetD i "lineno" (.num ⟨-1, 0⟩) with
            | .error e => .error e
            | .ok line =>
              match jGetD i "description" (.str "") with
              | .error e => .error e
              | .ok desc =>
                match jStrip desc with
                | .error e => .error e
                | .ok message => StaticIssue.make check severity line message

/-- `parse_mythril_output` applied to already-decoded JSON data. -/
def parse_mythril_data (data : JValue) (stderr : String) :
    Except PyErr StaticAnalysisOutput :=
  match jGetD data "success" .null with
  | .error e => .error e
  | .ok succ =>
    if succ.truthy then
      match jGetD data "issues" (.arr []) with
      | .error e => .error e
      | .ok issuesv =>
        match jIterList issuesv with
        | .error e => .error e
        | .ok is =>
          match is.mapM mythrilIssueOfIssue with
          | .error e => .error e
          | .ok issues => StaticAnalysisOutput.make "Mythril" (some issues) none
    else
      StaticAnalysisOutput.make "Mythril" none
        (some ("Mythril melaporkan kegagalan. STDERR: " ++ stderr))

/-- `static_analyzer.parse_mythril_output(stdout, stderr)`. -/
def parse_mythril_output (stdout stderr : String) :
    Except PyErr StaticAnalysisOutput :=
  match json_loads stdout with
  | .error _ =>
    StaticAnalysisOutput.make "Mythril" none
      (some ("Gagal mem-parsing output JSON. STDERR: " ++ stderr))
  | .ok data => parse_mythril_data data stderr

/-! ## static_analyzer.py — run_tool_in_docker

The Docker daemon is modelled by an oracle describing the outcome of this
invocation's calls.  `client.containers.run(..., detach=True)` either raises
`ImageNotFound` before any container exists, raises some other API error
before the `container` local is assigned, or returns a created container;
in detached mode it never raises `ContainerError`, so the dead
`except ContainerError` branch of the source has no corresponding oracle
case.  `container.wait(timeout=...)` either completes with a status code,
raises a timeout exception, or raises some other exception; `container.logs`
yields the captured streams.  The container count of the state tracks
containers of this client that exist (running or dangling). -/

/-- Outcome of `container.wait(timeout=timeout)`. -/
inductive WaitOutcome where
  | done (statusCode : Int)
  | timeoutExc (msg : String)
  | otherExc (msg : String)
deriving DecidableEq, Repr

/-- Outcome of `client.containers.run(..., detach=True)`. -/
inductive RunOutcome where
  | imageNotFound
  | runRaises (msg : String)
  | created (wait : WaitOutcome) (logsStdout : String) (logsStderr : String)
deriving DecidableEq, Repr

/-- The fixed `ImageNotFound` diagnostic of `run_tool_in_docker`. -/
def imageNotFoundMsg (image_name : String) : String :=
  "Image Docker tidak ditemukan: " ++ image_name ++
    ". Pastikan image sudah di-build atau di-pull."

/-- `static_analyzer.run_tool_in_docker`, over the Docker oracle.  The result
pairs the returned `(stdout, stderr)` with the number of containers existing
after the call (`containers` counts before the call). -/
def run_tool_in_docker (image_name : String) (outcome : RunOutcome)
    (containers : Nat) : (String × String) × Nat :=
  match outcome with
  | .imageNotFound => (("", imageNotFoundMsg image_name), containers)
  | .runRaises m => (("", m), containers)
  | .created w out err =>
    match w with
    | .done _ => ((out, err), containers + 1 - 1)
    | .timeoutExc m => (("", m), containers + 1 - 1)
    | .otherExc m => (("", m), containers + 1 - 1)

/-! ## llm_analyzer.py

`llm_analyzer` declares its own pydantic models (distinct from `models.py`):
`LLMIssue` with `confidence: float = Field(..., ge=0.0, le=1.0)` and
`LLMAnalysisResult` with required `executive_summary`,
`overall_risk_grading` and `findings` and an optional `error` defaulting to
`None`.  The remote HTTP call is modelled by an oracle. -/

/-- `llm_analyzer.LLMIssue`. -/
structure LLMIssue where
  severity : String
  category : String
  description : String
  confidence : JNum
deriving DecidableEq, Repr

/-- `llm_analyzer.LLMAnalysisResult`. -/
structure LLMAnalysisResult where
  executive_summary : String
  overall_risk_grading : String
  findings : List LLMIssue
  error : Option String
deriving DecidableEq, Repr

/-- Pydantic validation of one required string field. -/
def requireStrField (kvs : List (String × JValue)) (k : String) :
    Except PyErr String :=
  match lookupLast kvs k with
  | some (.str s) => .ok s
  | some _ => .error ⟨"ValidationError", k ++ ": input should be a valid string"⟩
  | none => .error ⟨"ValidationError", k ++ ": Field required"⟩

/-- Pydantic validation of `LLMIssue(**...)` from a JSON value: all four
fields required, `confidence` a number within `[0, 1]` (`ge=0.0, le=1.0`). -/
def LLMIssue.validate (v : JValue) : Except PyErr LLMIssue :=
  match v with
  | .obj kvs =>
    match requireStrField kvs "severity" with
    | .error e => .error e
    | .ok sev =>
      match requireStrField kvs "category" with
      | .error e => .error e
      | .ok cat =>
        match requireStrField kvs "description" with
        | .error e => .error e
        | .ok desc =>
          match lookupLast kvs "confidence" with
          | some (.num q) =>
            if 0 ≤ q.mantissa ∧ q.mantissa ≤ (pow10 q.exp10 : Int) then
              .ok ⟨sev, cat, desc, q⟩
            else .error ⟨"ValidationError",
              "confidence: input should be less than or equal to 1"⟩
          | some _ =>
            .error ⟨"ValidationError", "confidence: input should be a valid number"⟩
          | none => .error ⟨"ValidationError", "confidence: Field required"⟩
  | _ => .error ⟨"ValidationError", "input should be a valid dictionary"⟩

/-- Pydantic validation of `LLMAnalysisResult(**report_data)`. -/
def LLMAnalysisResult.validate (v : JValue) : Except PyErr LLMAnalysisResult :=
  match v with
  | .obj kvs =>
    match requireStrField kvs "executive_summary" with
    | .error e => .error e
    | .ok es =>
      match requireStrField kvs "overall_risk_grading" with
      | .error e => .error e
      | .ok org =>
        match lookupLast kvs "findings" with
        | some (.arr xs) =>
          match xs.mapM LLMIssue.validate with
          | .error e => .error e
          | .ok fs =>
            match lookupLast kvs "error" with
            | none => .ok ⟨es, org, fs, none⟩
            | some .null => .ok ⟨es, org, fs, none⟩
            | some (.str s) => .ok ⟨es, org, fs, some s⟩
            | some _ =>
              .error ⟨"ValidationError", "error: input should be a valid string"⟩
        | some _ =>
          .error ⟨"ValidationError", "findings: input should be a valid list"⟩
        | none => .error ⟨"ValidationError", "findings: Field required"⟩
  | _ => .error ⟨"ValidationError", "input should be a valid dictionary"⟩

/-- Outcome of `requests.post(api_url, json=payload, timeout=120)`:
a timeout, a connection failure, or an HTTP response with a status code and a
body text. -/
inductive HttpOutcome where
  | timeout (msg : String)
  | connectionError (msg : String)
  | response (status : Nat) (body : String)
deriving DecidableEq, Repr

/-- Environment of one `llm_analyzer.run_analysis` call: whether
`GEMINI_API_KEY` is set, and the outcome of the remote call. -/
structure LLMEnv where
  apiKeyPresent : Bool
  httpOutcome : HttpOutcome
deriving DecidableEq, Repr

/-- The `try` block of `run_analysis` (lines 100–118): issue the request,
`raise_for_status`, decode the response envelope, extract
`candidates[0].content.parts[0].text`, decode that text as JSON and validate
it as an `LLMAnalysisResult`.  Every `.error` is an exception reaching the
`except Exception` handler. -/
def runAnalysisTry (env : LLMEnv) : Except PyErr LLMAnalysisResult :=
  match env.httpOutcome with
  | .timeout m => .error ⟨"ReadTimeout", m⟩
  | .connectionError m => .error ⟨"ConnectionError", m⟩
  | .response status body =>
    if 400 ≤ status then
      .error ⟨"HTTPError", toString status ++ " Error for url"⟩
    else
      match json_loads body with
      | .error m => .error ⟨"JSONDecodeError", m⟩
      | .ok response_json =>
        match jGet response_json "candidates" with
        | .error e => .error e
        | .ok candsOpt =>
          if (candsOpt.getD .null).truthy = false then
            .error ⟨"KeyError",
              "Struktur respons LLM tidak valid: 'candidates' atau 'content' tidak ada."⟩
          else
            match jSubscriptKey response_json "candidates" with
            | .error e => .error e
            | .ok cands =>
              match jSubscriptIdx cands 0 with
              | .error e => .error e
              | .ok c0 =>
                match jGet c0 "content" with
                | .error e => .error e
                | .ok contentOpt =>
                  if (contentOpt.getD .null).truthy = false then
                    .error ⟨"KeyError",
                      "Struktur respons LLM tidak valid: 'candidates' atau 'content' tidak ada."⟩
                  else
                    match jSubscriptKey c0 "content" with
                    | .error e => .error e
                    | .ok content =>
                      match jSubscriptKey content "parts" with
                      | .error e => .error e
                      | .ok parts =>
                        match jSubscriptIdx parts 0 with
                        | .error e => .error e
                        | .ok p0 =>
                          match jSubscriptKey p0 "text" with
                          | .error e => .error e
                          | .ok textv =>
                            match textv with
                            | .str report_text =>
                              match json_loads report_text with
                              | .error m => .error ⟨"JSONDecodeError", m⟩
                              | .ok report_data =>
                                LLMAnalysisResult.validate report_data
                            | _ =>
                              .error ⟨"TypeError",
                                "the JSON object must be str, bytes or bytearray"⟩

/-- `llm_analyzer.run_analysis`: total — the missing-key guard returns an
error report, and the catch-all `except Exception` converts every exception
from the `try` block into an error report with no findings. -/
def run_analysis (env : LLMEnv) : LLMAnalysisResult :=
  if env.apiKeyPresent = false then
    ⟨"", "Unknown", [], some "Server error: GEMINI_API_KEY tidak dikonfigurasi."⟩
  else
    match runAnalysisTry env with
    | .ok r => r
    | .error e =>
      ⟨"", "Error", [],
        some ("Terjadi error saat analisis LLM: " ++ e.name ++ " - " ++ e.msg)⟩

/-! ## main.py — endpoints -/

/-- A raised `fastapi.HTTPException` with its status code and detail. -/
structure HTTPError where
  status : Nat
  detail : String
deriving DecidableEq, Repr

/-- A failure escaping an endpoint handler to the HTTP layer: either an
explicit `HTTPException` or an uncaught Python exception (which FastAPI turns
into a 500 response); in both cases the caller does not receive the report. -/
inductive EndpointFailure where
  | http (e : HTTPError)
  | exc (e : PyErr)
deriving DecidableEq, Repr

/-- Outcome of `fetch_source_code_from_etherscan(token_address)`: the source
text, or one of the `HTTPException`s that function raises (500 missing key,
404 unverified contract, 503 request error). -/
inductive FetchOutcome where
  | ok (source : String)
  | httpExc (status : Nat) (detail : String)
deriving DecidableEq, Repr

/-- Modelled from the spec: `static_analyzer.run_analysis` — the
Orchestrator's static fan-out (spec §4.4) — is called by `main.py` but absent
from `src/static_analyzer.py`.  Per the spec it runs both tools and collects
"each outcome independently (success, tool-error, or timeout)"; `main.py`'s
`isinstance(static_report, Exception)` check shows an outcome may be an
`Exception` instance (exceptions collected as values), and nothing in `src/`
prevents it from raising.  Its outcome is therefore an oracle with these three
cases. -/
inductive StaticRunOutcome where
  | report (r : StaticAnalysisOutput)
  | returnedExc (e : PyErr)
  | raised (e : PyErr)
deriving DecidableEq, Repr

/-- Effect trace of one `/static-analysis` request: whether Etherscan was
contacted, whether the temporary `.sol` file was created, whether the static
analysis was run, and whether the temporary file still exists after the
handler returns. -/
structure EndpointTrace where
  fetched : Bool
  tmpCreated : Bool
  analysisRun : Bool
  tmpRemains : Bool
deriving DecidableEq, Repr

/-- Python truthiness of an optional form string (`None` and `""` are
falsy). -/
def optTruthy : Option String → Bool
  | none => false
  | some s => s ≠ ""

/-- The `/static-analysis` handler (`main.static_analysis`).  Its two guards
run before any effect; the `source_file` branch evaluates
`source_file.filename` on a `str` and raises `AttributeError`; the
`token_address` branch fetches from Etherscan, writes the temporary file,
awaits `static_analyzer.run_analysis`, converts an `Exception` result into
`HTTPException(500)`, and the `finally` block removes the temporary file
whenever its path was recorded. -/
def static_analysis (token_address source_file : Option String)
    (fetch : FetchOutcome) (run : StaticRunOutcome) :
    Except EndpointFailure StaticAnalysisOutput × EndpointTrace :=
  if optTruthy token_address = false ∧ optTruthy source_file = false then
    (.error (.http ⟨400,
      "Harus ada 'token_address' atau 'source_file' yang disediakan untuk analisis static."⟩),
      ⟨false, false, false, false⟩)
  else if optTruthy token_address ∧ optTruthy source_file then
    (.error (.http ⟨400,
      "Tidak bisa menggunakan 'token_address' dan 'source_file' bersamaan."⟩),
      ⟨false, false, false, false⟩)
  else if optTruthy source_file then
    (.error (.exc ⟨"AttributeError", "str object has no attribute filename"⟩),
      ⟨false, false, false, false⟩)
  else
    match fetch with
    | .httpExc status detail =>
      (.error (.http ⟨status, detail⟩), ⟨true, false, false, false⟩)
    | .ok _source =>
      match run with
      | .report r => (.ok r, ⟨true, true, true, false⟩)
      | .returnedExc e =>
        (.error (.http ⟨500, "Analisis static gagal: " ++ e.msg⟩),
          ⟨true, true, true, false⟩)
      | .raised e => (.error (.exc e), ⟨true, true, true, false⟩)

/-- The `/llm-analysis` handler (`main.llm_analysis`), over the top-level
request dictionary (FastAPI's `Body(...)` of `Dict[str, Any]` guarantees a
dict) and the LLM-call oracle. -/
def llm_analysis (input : List (String × JValue)) (env : LLMEnv) :
    Except EndpointFailure LLMAnalysisResult :=
  let badInput : Except EndpointFailure LLMAnalysisResult :=
    .error (.http ⟨400, "Input JSON harus berisi 'contract_metadata' dengan 'token_address'."⟩)
  match lookupLast input "contract_metadata" with
  | none => badInput
  | some cm =>
    match pyContains "token_address" cm with
    | .error e => .error (.exc e)
    | .ok false => badInput
    | .ok true => .ok (run_analysis env)

/-! ## Concrete inputs used in the theorems -/

/-- The five canonical severity levels of the spec's `Finding` schema. -/
def canonicalSeverities : List String :=
  ["Informational", "Low", "Medium", "High", "Critical"]

/-- Spec scenario A: a Slither run whose single detector entry is
`{"check":"reentrancy-eth","impact":"High",
"elements":[{"source_mapping":{"lines":[42]}}],
"description":"External call before state update"}`. -/
def scenarioAStdout : String :=
  "\x7b\"success\": true, \"results\": \x7b\"detectors\": [\x7b\"check\": \"reentrancy-eth\", \"impact\": \"High\", \"elements\": [\x7b\"source_mapping\": \x7b\"lines\": [42]\x7d\x7d], \"description\": \"External call before state update\"\x7d]\x7d\x7d"

/-- The scenario-A detector entry as a decoded JSON object. -/
def scenarioADetector : List (String × JValue) :=
  [("check", .str "reentrancy-eth"), ("impact", .str "High"),
   ("elements", .arr [.obj [("source_mapping", .obj [("lines", .arr [.num ⟨42, 0⟩])])]]),
   ("description", .str "External call before state update")]

/-- A detector entry carrying Slither's real `Optimization` impact, which is
part of Slither's own impact vocabulary. -/
def optimizationDetector : JValue :=
  .obj [("check", .str "dead-code"), ("impact", .str "Optimization"),
        ("elements", .arr [.obj [("source_mapping", .obj [("lines", .arr [.num ⟨7, 0⟩])])]]),
        ("description", .str "m")]

/-- A successful Gemini response whose inner report is schema-valid and sets
both the optional `error` field and a non-empty `findings` list. -/
def errorAndFindingsBody : String :=
  "\x7b\"candidates\": [\x7b\"content\": \x7b\"parts\": [\x7b\"text\": \"\x7b\\\"executive_summary\\\": \\\"s\\\", \\\"overall_risk_grading\\\": \\\"Rendah\\\", \\\"findings\\\": [\x7b\\\"severity\\\": \\\"Tinggi\\\", \\\"category\\\": \\\"Logic Flaw\\\", \\\"description\\\": \\\"d\\\", \\\"confidence\\\": 0.9\x7d], \\\"error\\\": \\\"oops\\\"\x7d\"\x7d]\x7d\x7d]\x7d"

/-- A successful Gemini response whose inner report lacks the required
`findings` field. -/
def missingFindingsBody : String :=
  "\x7b\"candidates\": [\x7b\"content\": \x7b\"parts\": [\x7b\"text\": \"\x7b\\\"executive_summary\\\": \\\"s\\\", \\\"overall_risk_grading\\\": \\\"Rendah\\\"\x7d\"\x7d]\x7d\x7d]\x7d"

/-- A successful Gemini response whose inner report has a finding with
confidence `1.5`, outside `[0.0, 1.0]`. -/
def badConfidenceBody : String :=
  "\x7b\"candidates\": [\x7b\"content\": \x7b\"parts\": [\x7b\"text\": \"\x7b\\\"executive_summary\\\": \\\"s\\\", \\\"overall_risk_grading\\\": \\\"Rendah\\\", \\\"findings\\\": [\x7b\\\"severity\\\": \\\"Tinggi\\\", \\\"category\\\": \\\"Logic Flaw\\\", \\\"description\\\": \\\"d\\\", \\\"confidence\\\": 1.5\x7d]\x7d\"\x7d]\x7d\x7d]\x7d"

/-- A Slither run that completed successfully and reported no findings. -/
def noFindingsStdout : String :=
  "\x7b\"success\": true, \"results\": \x7b\x7d\x7d"

/-- A Mythril run that completed successfully and reported no issues. -/
def mythrilNoIssuesStdout : String :=
  "\x7b\"success\": true, \"issues\": []\x7d"

/-! ## Helper lemmas -/

set_option maxRecDepth 100000

/-- `.get` with default on a dict is total. -/
theorem jGetD_obj (kvs : List (String × JValue)) (k : String) (d : JValue) :
    jGetD (.obj kvs) k d = .ok ((lookupLast kvs k).getD d) := rfl

/-- Subscript `0` on a non-empty list yields its head. -/
theorem jSubscriptIdx_cons0 (x : JValue) (xs : List JValue) :
    jSubscriptIdx (.arr (x :: xs)) 0 = .ok x := rfl

/-- `json.loads` fails on the empty string. -/
theorem json_loads_empty :
    json_loads "" = .error "Expecting value: unexpected end of input" := rfl

/-- Constructing `StaticAnalysisOutput` without `issues` raises. -/
theorem make_without_issues (n : String) (e : Option String) :
    StaticAnalysisOutput.make n none e =
      .error ⟨"ValidationError", "issues: Field required"⟩ := rfl

/-- Every report `parse_slither_data` returns has `error = None`: the one
`.ok`-producing branch passes `error := none` to the constructor, while both
failure branches omit `issues` and therefore raise. -/
theorem parse_slither_data_ok_error_none (data : JValue) (stderr : String)
    (r : StaticAnalysisOutput) (h : parse_slither_data data stderr = .ok r) :
    r.error = none := by
  unfold parse_slither_data at h
  repeat' split at h
  all_goals (try simp_all [StaticAnalysisOutput.make])
  all_goals (cases h; rfl)

/-- Every report `parse_mythril_data` returns has `error = None`. -/
theorem parse_mythril_data_ok_error_none (data : JValue) (stderr : String)
    (r : StaticAnalysisOutput) (h : parse_mythril_data data stderr = .ok r) :
    r.error = none := by
  unfold parse_mythril_data at h
  repeat' split at h
  all_goals (try simp_all [StaticAnalysisOutput.make])
  all_goals (cases h; rfl)

/-- Every report `parse_slither_output` returns (rather than raises) has
`error = None`. -/
theorem parse_slither_output_ok_error_none (stdout stderr : String)
    (r : StaticAnalysisOutput) (h : parse_slither_output stdout stderr = .ok r) :
    r.error = none := by
  unfold parse_slither_output at h
  split at h
  · simp [StaticAnalysisOutput.make] at h
  · exact parse_slither_data_ok_error_none _ _ _ h

/-- Every report `parse_mythril_output` returns (rather than raises) has
`error = None`. -/
theorem parse_mythril_output_ok_error_none (stdout stderr : String)
    (r : StaticAnalysisOutput) (h : parse_mythril_output stdout stderr = .ok r) :
    r.error = none := by
  unfold parse_mythril_output at h
  split at h
  · simp [StaticAnalysisOutput.make] at h
  · exact parse_mythril_data_ok_error_none _ _ _ h

/-- When the `try` block raises, `run_analysis` answers with the catch-all
error report (or the missing-key report): empty findings, non-null error. -/
theorem run_analysis_error_report (env : LLMEnv) (e : PyErr)
    (h : runAnalysisTry env = .error e) :
    (run_analysis env).findings = [] ∧ (run_analysis env).error ≠ none := by
  unfold run_analysis
  split
  · exact ⟨rfl, by simp⟩
  · split
    · simp_all
    · exact ⟨rfl, by simp⟩

/-- Without `GEMINI_API_KEY`, `run_analysis` answers with the fixed
configuration-error report. -/
theorem run_analysis_no_key (env : LLMEnv) (h : env.apiKeyPresent = false) :
    run_analysis env =
      ⟨"", "Unknown", [], some "Server error: GEMINI_API_KEY tidak dikonfigurasi."⟩ := by
  unfold run_analysis
  simp [h]

/-- A timed-out remote call raises out of the `try` block. -/
theorem runAnalysisTry_timeout (k : Bool) (m : String) :
    runAnalysisTry ⟨k, .timeout m⟩ = .error ⟨"ReadTimeout", m⟩ := rfl

/-- A failed connection raises out of the `try` block. -/
theorem runAnalysisTry_conn (k : Bool) (m : String) :
    runAnalysisTry ⟨k, .connectionError m⟩ = .error ⟨"ConnectionError", m⟩ := rfl

/-- A non-success HTTP status makes `raise_for_status` raise. -/
theorem runAnalysisTry_status (k : Bool) (s : Nat) (b : String) (h : 400 ≤ s) :
    runAnalysisTry ⟨k, .response s b⟩ =
      .error ⟨"HTTPError", toString s ++ " Error for url"⟩ := by
  unfold runAnalysisTry
  simp [h]

/-- A response body that is not valid JSON makes `response.json()` raise. -/
theorem runAnalysisTry_bad_json (k : Bool) (s : Nat) (b m : String)
    (h : json_loads b = .error m) :
    ∃ e, runAnalysisTry ⟨k, .response s b⟩ = .error e := by
  unfold runAnalysisTry
  by_cases h4 : 400 ≤ s
  · exact ⟨⟨"HTTPError", toString s ++ " Error for url"⟩, by simp [h4]⟩
  · exact ⟨⟨"JSONDecodeError", m⟩, by simp [h4, h]⟩

/-- A Slither detector entry with a string `impact` yields an issue whose
severity is exactly `impact.capitalize()`. -/
theorem slither_severity_capitalize (kvs : List (String × JValue)) (s : String)
    (issue : StaticIssue)
    (himp : lookupLast kvs "impact" = some (.str s))
    (h : slitherIssueOfDetector (.obj kvs) = .ok issue) :
    issue.severity = pyCapitalize s := by
  unfold slitherIssueOfDetector StaticIssue.make at h
  simp only [jGetD_obj, himp, Option.getD, jCapitalize] at h
  repeat' split at h
  all_goals try (cases h)
  all_goals rfl

/-- A Slither detector entry with no `impact` key yields severity
`"Unknown"`. -/
theorem slither_severity_absent (kvs : List (String × JValue))
    (issue : StaticIssue)
    (himp : lookupLast kvs "impact" = none)
    (h : slitherIssueOfDetector (.obj kvs) = .ok issue) :
    issue.severity = "Unknown" := by
  unfold slitherIssueOfDetector StaticIssue.make at h
  simp only [jGetD_obj, himp, Option.getD, jCapitalize] at h
  repeat' split at h
  all_goals try (cases h)
  all_goals rfl

/-- A Mythril issue entry with a string `severity` yields an issue whose
severity is exactly `severity.capitalize()`. -/
theorem mythril_severity_capitalize (kvs : List (String × JValue)) (s : String)
    (issue : StaticIssue)
    (hsev : lookupLast kvs "severity" = some (.str s))
    (h : mythrilIssueOfIssue (.obj kvs) = .ok issue) :
    issue.severity = pyCapitalize s := by
  unfold mythrilIssueOfIssue StaticIssue.make at h
  simp only [jGetD_obj, hsev, Option.getD, jCapitalize] at h
  repeat' split at h
  all_goals try (cases h)
  all_goals rfl

/-- A Mythril issue entry with no `severity` key yields severity
`"Unknown"`. -/
theorem mythril_severity_absent (kvs : List (String × JValue))
    (issue : StaticIssue)
    (hsev : lookupLast kvs "severity" = none)
    (h : mythrilIssueOfIssue (.obj kvs) = .ok issue) :
    issue.severity = "Unknown" := by
  unfold mythrilIssueOfIssue StaticIssue.make at h
  simp only [jGetD_obj, hsev, Option.getD, jCapitalize] at h
  repeat' split at h
  all_goals try (cases h)
  all_goals rfl

/-- When the first element of a detector's `elements` carries a
`source_mapping.lines` list headed by the integer `n`, the produced issue's
`line` is `n`. -/
theorem slither_line_head (kvs ekvs smkvs : List (String × JValue))
    (rest ls : List JValue) (n : Int) (issue : StaticIssue)
    (he : lookupLast kvs "elements" = some (.arr (.obj ekvs :: rest)))
    (hs : lookupLast ekvs "source_mapping" = some (.obj smkvs))
    (hl : lookupLast smkvs "lines" = some (.arr (.num ⟨n, 0⟩ :: ls)))
    (h : slitherIssueOfDetector (.obj kvs) = .ok issue) :
    issue.line = n := by
  unfold slitherIssueOfDetector StaticIssue.make at h
  simp only [jGetD_obj, he, hs, hl, Option.getD, jSubscriptIdx_cons0] at h
  repeat' split at h
  all_goals try (cases h)
  all_goals (show n / ((pow10 0 : Nat) : Int) = n; simp only [pow10]; omega)

/-! ## Claim theorems -/

/-- C2: the claim says `parse_slither_output` never raises and converts a
malformed-JSON stdout into a report with tool name `Slither`, an error
beginning `Gagal mem-parsing output JSON` and an empty issues list.  The code
contradicts this: on the concrete malformed stdout `"not json"` the
`except json.JSONDecodeError` handler constructs
`StaticAnalysisOutput(tool_name="Slither", error=...)` without the required
`issues` field, so pydantic raises `ValidationError` out of the function
instead. -/
theorem C2_parse_failure_raises_validation_error :
    parse_slither_output "not json" "" =
      .error ⟨"ValidationError", "issues: Field required"⟩ := rfl

/-- C4: `run_tool_in_docker` leaves no dangling container on any exit path —
for every Docker oracle outcome the container count after the call equals the
count before it — and on a wait timeout it returns the empty-stdout error
signal `("", str(e))`, not the container's partial logs. -/
theorem C4_no_dangling_container :
    ∀ (image : String) (outcome : RunOutcome) (containers : Nat),
      (run_tool_in_docker image outcome containers).2 = containers ∧
      (∀ m out err, outcome = .created (.timeoutExc m) out err →
        (run_tool_in_docker image outcome containers).1 = ("", m)) := by
  intro image outcome st
  refine ⟨?_, ?_⟩
  · cases outcome with
    | imageNotFound => rfl
    | runRaises m => rfl
    | created w out err => cases w <;> simp [run_tool_in_docker]
  · intro m out err h
    subst h
    rfl

/-- C4 witness: a timed-out wait over partial logs at a concrete state. -/
theorem C4_no_dangling_container_witness :
    (run_tool_in_docker "img" (.created (.timeoutExc "t") "partial" "e") 3).2 = 3 ∧
    (run_tool_in_docker "img" (.created (.timeoutExc "t") "partial" "e") 3).1 =
      ("", "t") :=
  ⟨(C4_no_dangling_container "img" (.created (.timeoutExc "t") "partial" "e") 3).1,
   (C4_no_dangling_container "img" (.created (.timeoutExc "t") "partial" "e") 3).2
     "t" "partial" "e" rfl⟩

/-- C7: on image-not-found, `run_tool_in_docker` fails fast — it creates no
container and returns `("", "Image Docker tidak ditemukan: <image>...")` —
and that return value differs from the return of every run in which the tool
actually produced a report on stdout (valid JSON, which covers both an
analysis failure and a successful run reporting no findings), because the
image-not-found stdout `""` is not valid JSON. -/
theorem C7_image_not_found_fails_fast :
    ∀ (image : String) (containers : Nat),
      (run_tool_in_docker image .imageNotFound containers).2 = containers ∧
      (run_tool_in_docker image .imageNotFound containers).1 =
        ("", imageNotFoundMsg image) ∧
      (∀ (code : Int) (out err : String) (st : Nat) (v : JValue),
        json_loads out = .ok v →
        (run_tool_in_docker image (.created (.done code) out err) st).1 ≠
          (run_tool_in_docker image .imageNotFound containers).1) := by
  intro image st
  refine ⟨rfl, rfl, ?_⟩
  intro code out err st' v hjson heq
  have hout : out = "" := congrArg Prod.fst heq
  rw [hout, json_loads_empty] at hjson
  cases hjson

/-- C7 witness: a successful no-findings Slither run is distinguishable from
the image-not-found result. -/
theorem C7_image_not_found_fails_fast_witness :
    (run_tool_in_docker "img" .imageNotFound 0).2 = 0 ∧
    (run_tool_in_docker "img" .imageNotFound 0).1 = ("", imageNotFoundMsg "img") ∧
    (run_tool_in_docker "img" (.created (.done 0) noFindingsStdout "") 0).1 ≠
      (run_tool_in_docker "img" .imageNotFound 0).1 :=
  ⟨(C7_image_not_found_fails_fast "img" 0).1,
   (C7_image_not_found_fails_fast "img" 0).2.1,
   (C7_image_not_found_fails_fast "img" 0).2.2 0 noFindingsStdout "" 0
     (.obj [("success", .bool true), ("results", .obj [])]) rfl⟩

/-- C9: the `/static-analysis` endpoint rejects a request providing neither
`token_address` nor `source_file`, and a request providing both, with HTTP
400 — before contacting Etherscan, creating the temporary file, or running
any analysis (the effect trace is all-false).  `"providing"` follows the
code's Python truthiness: an empty form string counts as absent. -/
theorem C9_requires_exactly_one_source :
    ∀ (ta sf : Option String) (fetch : FetchOutcome) (run : StaticRunOutcome),
      ((optTruthy ta = false ∧ optTruthy sf = false) →
        static_analysis ta sf fetch run =
          (.error (.http ⟨400,
            "Harus ada 'token_address' atau 'source_file' yang disediakan untuk analisis static."⟩),
            ⟨false, false, false, false⟩)) ∧
      ((optTruthy ta = true ∧ optTruthy sf = true) →
        static_analysis ta sf fetch run =
          (.error (.http ⟨400,
            "Tidak bisa menggunakan 'token_address' dan 'source_file' bersamaan."⟩),
            ⟨false, false, false, false⟩)) := by
  intro ta sf fetch run
  constructor
  · intro h
    unfold static_analysis
    simp [h.1, h.2]
  · intro h
    unfold static_analysis
    simp [h.1, h.2]

/-- C9 witness: the neither case and the both case at concrete requests. -/
theorem C9_requires_exactly_one_source_witness :
    static_analysis none none (.ok "src") (.report ⟨"Slither", [], none⟩) =
      (.error (.http ⟨400,
        "Harus ada 'token_address' atau 'source_file' yang disediakan untuk analisis static."⟩),
        ⟨false, false, false, false⟩) ∧
    static_analysis (some "0xabc") (some "a.sol") (.ok "src")
        (.report ⟨"Slither", [], none⟩) =
      (.error (.http ⟨400,
        "Tidak bisa menggunakan 'token_address' dan 'source_file' bersamaan."⟩),
        ⟨false, false, false, false⟩) :=
  ⟨(C9_requires_exactly_one_source none none (.ok "src")
      (.report ⟨"Slither", [], none⟩)).1 ⟨rfl, rfl⟩,
   (C9_requires_exactly_one_source (some "0xabc") (some "a.sol") (.ok "src")
      (.report ⟨"Slither", [], none⟩)).2 ⟨by decide, by decide⟩⟩

/-- C10: after every `/static-analysis` request — whatever the inputs, the
Etherscan outcome and the static-run outcome, whether the handler returns a
report or a failure escapes — the temporary `.sol` file no longer exists:
paths that never create it create nothing, and every path that creates it
runs the `finally` removal. -/
theorem C10_temp_file_removed :
    ∀ (ta sf : Option String) (fetch : FetchOutcome) (run : StaticRunOutcome),
      (static_analysis ta sf fetch run).2.tmpRemains = false := by
  intro ta sf fetch run
  unfold static_analysis
  repeat' split
  all_goals rfl

/-- C1 counterexample: `Optimization` belongs to Slither's own impact
vocabulary, yet the normalizer records the severity `"Optimization"`, which
is neither one of the five canonical levels nor the fallback `"Unknown"` —
the claimed total mapping onto the canonical scale does not exist; the code
merely capitalizes the raw string. -/
theorem C1_counterexample :
    slitherIssueOfDetector optimizationDetector =
      .ok ⟨"dead-code", "Optimization", 7, "m"⟩ ∧
    "Optimization" ∉ canonicalSeverities ∧ "Optimization" ≠ "Unknown" :=
  ⟨rfl, by decide, by decide⟩

/-- C1 (amended): the recorded severity is the raw `impact` (Slither) or
`severity` (Mythril) string passed through Python `str.capitalize()`, and
`"Unknown"` exactly when the key is absent; capitalization does map the
canonical vocabulary case-insensitively onto the five canonical levels
(checked on representative case variants), but any other raw value — such as
Slither's `Optimization` — passes through capitalized instead of mapping to
`"Unknown"`. -/
theorem C1_severity_is_capitalized_raw :
    (∀ (kvs : List (String × JValue)) (s : String) (issue : StaticIssue),
      lookupLast kvs "impact" = some (.str s) →
      slitherIssueOfDetector (.obj kvs) = .ok issue →
      issue.severity = pyCapitalize s) ∧
    (∀ (kvs : List (String × JValue)) (issue : StaticIssue),
      lookupLast kvs "impact" = none →
      slitherIssueOfDetector (.obj kvs) = .ok issue →
      issue.severity = "Unknown") ∧
    (∀ (kvs : List (String × JValue)) (s : String) (issue : StaticIssue),
      lookupLast kvs "severity" = some (.str s) →
      mythrilIssueOfIssue (.obj kvs) = .ok issue →
      issue.severity = pyCapitalize s) ∧
    (∀ (kvs : List (String × JValue)) (issue : StaticIssue),
      lookupLast kvs "severity" = none →
      mythrilIssueOfIssue (.obj kvs) = .ok issue →
      issue.severity = "Unknown") ∧
    (∀ s ∈ ["informational", "Informational", "INFORMATIONAL", "low", "LOW",
            "medium", "MEDIUM", "high", "High", "HIGH", "hIgH",
            "critical", "Critical", "CRITICAL"],
      pyCapitalize s ∈ canonicalSeverities) :=
  ⟨fun kvs s issue h1 h2 => slither_severity_capitalize kvs s issue h1 h2,
   fun kvs issue h1 h2 => slither_severity_absent kvs issue h1 h2,
   fun kvs s issue h1 h2 => mythril_severity_capitalize kvs s issue h1 h2,
   fun kvs issue h1 h2 => mythril_severity_absent kvs issue h1 h2,
   by decide⟩

/-- C1 witness: the scenario-A detector with `impact = "High"`, and the
case-variant `"hIgH"` of the vocabulary check. -/
theorem C1_severity_is_capitalized_raw_witness :
    (⟨"reentrancy-eth", "High", 42, "External call before state update"⟩ :
      StaticIssue).severity = pyCapitalize "High" ∧
    pyCapitalize "hIgH" ∈ canonicalSeverities :=
  ⟨C1_severity_is_capitalized_raw.1 scenarioADetector "High"
      ⟨"reentrancy-eth", "High", 42, "External call before state update"⟩
      rfl rfl,
   C1_severity_is_capitalized_raw.2.2.2.2 "hIgH" (by decide)⟩

/-- C3: the claim says analyzer-level failures never escape an analysis
endpoint as an HTTP-level failure.  The code contradicts this on the static
side: `main.static_analysis` converts an `Exception` outcome of the static
run into a raised `HTTPException(500)`, and an outcome that raises escapes
as the raised exception itself; and such outcomes arise from analyzer-level
parse failures, because `parse_mythril_output` on invalid JSON raises
`ValidationError` (the error report it tries to build omits the required
`issues` field) instead of returning an error report. -/
theorem C3_analyzer_failure_escapes_as_http_failure :
    (∀ (src : String) (e : PyErr),
      (static_analysis (some "0xabc") none (.ok src) (.returnedExc e)).1 =
        .error (.http ⟨500, "Analisis static gagal: " ++ e.msg⟩)) ∧
    (∀ (src : String) (e : PyErr),
      (static_analysis (some "0xabc") none (.ok src) (.raised e)).1 =
        .error (.exc e)) ∧
    parse_mythril_output "not json" "mythril stderr" =
      .error ⟨"ValidationError", "issues: Field required"⟩ := by
  refine ⟨?_, ?_, rfl⟩ <;> (intro src e; rfl)

/-- C5: `run_analysis` is total (it is a plain function here, mirroring the
catch-all `except Exception`), and every failure mode of the remote call —
timeout, connection failure, non-success HTTP status, a body that is not
valid JSON, a schema violation such as a missing `findings` field, or a
confidence of `1.5` — yields a report with a non-null `error` and an empty
findings list. -/
theorem C5_llm_failures_become_error_reports :
    (∀ (k : Bool) (m : String),
      (run_analysis ⟨k, .timeout m⟩).findings = [] ∧
      (run_analysis ⟨k, .timeout m⟩).error ≠ none) ∧
    (∀ (k : Bool) (m : String),
      (run_analysis ⟨k, .connectionError m⟩).findings = [] ∧
      (run_analysis ⟨k, .connectionError m⟩).error ≠ none) ∧
    (∀ (k : Bool) (s : Nat) (b : String), 400 ≤ s →
      (run_analysis ⟨k, .response s b⟩).findings = [] ∧
      (run_analysis ⟨k, .response s b⟩).error ≠ none) ∧
    (∀ (k : Bool) (s : Nat) (b m : String), json_loads b = .error m →
      (run_analysis ⟨k, .response s b⟩).findings = [] ∧
      (run_analysis ⟨k, .response s b⟩).error ≠ none) ∧
    run_analysis ⟨true, .response 200 missingFindingsBody⟩ =
      ⟨"", "Error", [],
        some "Terjadi error saat analisis LLM: ValidationError - findings: Field required"⟩ ∧
    run_analysis ⟨true, .response 200 badConfidenceBody⟩ =
      ⟨"", "Error", [],
        some "Terjadi error saat analisis LLM: ValidationError - confidence: input should be less than or equal to 1"⟩ := by
  refine ⟨?_, ?_, ?_, ?_, rfl, rfl⟩
  · intro k m
    exact run_analysis_error_report _ _ (runAnalysisTry_timeout k m)
  · intro k m
    exact run_analysis_error_report _ _ (runAnalysisTry_conn k m)
  · intro k s b h
    exact run_analysis_error_report _ _ (runAnalysisTry_status k s b h)
  · intro k s b m h
    obtain ⟨e, he⟩ := runAnalysisTry_bad_json k s b m h
    exact run_analysis_error_report _ _ he

/-- C5 witness: a timeout, an HTTP 503, and a non-JSON body. -/
theorem C5_llm_failures_become_error_reports_witness :
    ((run_analysis ⟨true, .timeout "t"⟩).findings = [] ∧
      (run_analysis ⟨true, .timeout "t"⟩).error ≠ none) ∧
    ((run_analysis ⟨true, .response 503 ""⟩).findings = [] ∧
      (run_analysis ⟨true, .response 503 ""⟩).error ≠ none) ∧
    ((run_analysis ⟨true, .response 200 "not json"⟩).findings = [] ∧
      (run_analysis ⟨true, .response 200 "not json"⟩).error ≠ none) :=
  ⟨C5_llm_failures_become_error_reports.1 true "t",
   C5_llm_failures_become_error_reports.2.2.1 true 503 "" (by decide),
   C5_llm_failures_become_error_reports.2.2.2.1 true 200 "not json"
     "Expecting value" rfl⟩

/-- C6 counterexample: a schema-valid remote response may set the optional
`error` field and a non-empty `findings` list at once; `run_analysis`
validates and returns it unchanged, so the produced report violates the
claimed invariant `error ≠ None → findings = []`. -/
theorem C6_counterexample :
    (run_analysis ⟨true, .response 200 errorAndFindingsBody⟩).error =
      some "oops" ∧
    (run_analysis ⟨true, .response 200 errorAndFindingsBody⟩).findings =
      [⟨"Tinggi", "Logic Flaw", "d", ⟨9, 1⟩⟩] ∧
    ([⟨"Tinggi", "Logic Flaw", "d", ⟨9, 1⟩⟩] : List LLMIssue) ≠ [] :=
  ⟨rfl, rfl, by decide⟩

/-- C6 (amended): the invariant holds for every report the analyzers'
own code paths produce — a static report that `parse_slither_output` or
`parse_mythril_output` returns always has `error = None` (their error-report
paths raise `ValidationError` instead of returning), and every
`LLMAnalysisResult` built by `run_analysis`'s own failure handling (missing
API key, or any exception from the `try` block) has a non-null `error` and
empty findings — but not for a validated successful LLM response, which may
carry both `error` and findings (see the counterexample). -/
theorem C6_error_implies_empty_findings_amended :
    (∀ (stdout stderr : String) (r : StaticAnalysisOutput),
      parse_slither_output stdout stderr = .ok r → r.error = none) ∧
    (∀ (stdout stderr : String) (r : StaticAnalysisOutput),
      parse_mythril_output stdout stderr = .ok r → r.error = none) ∧
    (∀ env : LLMEnv, env.apiKeyPresent = false →
      (run_analysis env).findings = [] ∧ (run_analysis env).error ≠ none) ∧
    (∀ (env : LLMEnv) (e : PyErr), runAnalysisTry env = .error e →
      (run_analysis env).findings = [] ∧ (run_analysis env).error ≠ none) := by
  refine ⟨parse_slither_output_ok_error_none, parse_mythril_output_ok_error_none,
    ?_, run_analysis_error_report⟩
  intro env h
  rw [run_analysis_no_key env h]
  exact ⟨rfl, by simp⟩

/-- C6 amended witness: a returned Slither report, a returned Mythril
report, the missing-key path, and a timeout failure path. -/
theorem C6_error_implies_empty_findings_amended_witness :
    (⟨"Slither",
      [⟨"reentrancy-eth", "High", 42, "External call before state update"⟩],
      none⟩ : StaticAnalysisOutput).error = none ∧
    (⟨"Mythril", [], none⟩ : StaticAnalysisOutput).error = none ∧
    (run_analysis ⟨false, .timeout "t"⟩).findings = [] ∧
    (run_analysis ⟨true, .timeout "t"⟩).findings = [] :=
  ⟨C6_error_implies_empty_findings_amended.1 scenarioAStdout "" _ rfl,
   C6_error_implies_empty_findings_amended.2.1 mythrilNoIssuesStdout "" _ rfl,
   (C6_error_implies_empty_findings_amended.2.2.1 ⟨false, .timeout "t"⟩ rfl).1,
   (C6_error_implies_empty_findings_amended.2.2.2 ⟨true, .timeout "t"⟩
      ⟨"ReadTimeout", "t"⟩ rfl).1⟩

/-- C8: the scenario-A detector entry normalizes to the finding
`{check: "reentrancy-eth", severity: "High", line: 42, message: "External
call before state update"}` through the whole pipeline, and in general, for
a detector whose non-empty `elements` list begins with an element carrying
`source_mapping.lines` headed by the integer `n`, the recorded line is
`n` — the first line of the first reported element. -/
theorem C8_line_is_first_line_of_first_element :
    parse_slither_output scenarioAStdout "" =
      .ok ⟨"Slither",
        [⟨"reentrancy-eth", "High", 42, "External call before state update"⟩],
        none⟩ ∧
    (∀ (kvs ekvs smkvs : List (String × JValue)) (rest ls : List JValue)
        (n : Int) (issue : StaticIssue),
      lookupLast kvs "elements" = some (.arr (.obj ekvs :: rest)) →
      lookupLast ekvs "source_mapping" = some (.obj smkvs) →
      lookupLast smkvs "lines" = some (.arr (.num ⟨n, 0⟩ :: ls)) →
      slitherIssueOfDetector (.obj kvs) = .ok issue →
      issue.line = n) :=
  ⟨rfl, fun kvs ekvs smkvs rest ls n issue he hs hl h =>
    slither_line_head kvs ekvs smkvs rest ls n issue he hs hl h⟩

/-- C8 witness: the general statement applied to the scenario-A entry. -/
theorem C8_line_is_first_line_of_first_element_witness :
    slitherIssueOfDetector (.obj scenarioADetector) =
      .ok ⟨"reentrancy-eth", "High", 42, "External call before state update"⟩ ∧
    (⟨"reentrancy-eth", "High", 42, "External call before state update"⟩ :
      StaticIssue).line = 42 :=
  ⟨rfl,
   C8_line_is_first_line_of_first_element.2 scenarioADetector
     [("source_mapping", .obj [("lines", .arr [.num ⟨42, 0⟩])])]
     [("lines", .arr [.num ⟨42, 0⟩])] [] [] 42
     ⟨"reentrancy-eth", "High", 42, "External call before state update"⟩
     rfl rfl rfl rfl⟩

end SCA
